import Mathlib

/-!
Verification of the metadata-merge core of the mamba package cache.

The implementation of `merge_repodata_record`, `is_corrupted_cache_entry`
and the `PackageFetcher` cache validation is exercised by the tests under
`src/libmamba/tests` but its definition is not part of the source tree;
the definitions below are therefore modelled from the specification
(sections 3, 4.3, 4.5, 4.6 and 7) and checked against the behaviours the
tests pin down.
-/

namespace MambaCache

/-- Modelled from the spec: the scalar/list JSON values that appear in an
archive `index.json` and in a written `repodata_record.json` (section 6:
numbers are integers, arrays are arrays of spec strings). -/
inductive JVal where
  | jstr (s : String)
  | jnat (n : Nat)
  | jarr (xs : List String)
  | jnull
  deriving Repr, DecidableEq

/-- Modelled from the spec: a written record is an ordered JSON object,
represented as an association list of key/value pairs (section 3,
RepodataRecord). -/
abbrev RepodataRecord := List (String × JVal)

/-- First value bound to `key` in a record, `none` when the key is absent. -/
def lookupKey : RepodataRecord → String → Option JVal
  | [], _ => none
  | (k, v) :: rest, key => if k = key then some v else lookupKey rest key

/-- Modelled from the spec: tri-state for the `arch`/`platform` keys of an
archive index — absent, explicitly null, or a string value (section 4.2). -/
inductive TriState where
  | absent
  | null
  | value (s : String)
  deriving Repr, DecidableEq

/-- Modelled from the spec: the `PackageInfo` / PackageIdentity value record
(section 3), with the `defaulted_keys` trust witness naming stub fields. -/
structure PackageInfo where
  name : String
  version : String
  build_string : String
  build_number : Nat
  license : String
  timestamp : Nat
  depends : List String
  constrains : List String
  track_features : String
  size : Nat
  noarch : Option String
  python_site_packages_path : Option String
  channel : String
  url : String
  subdir : String
  fn : String
  md5 : String
  sha256 : String
  defaulted_keys : List String
  deriving Repr, DecidableEq

/-- Modelled from the spec: the parsed archive-embedded `index.json`
(section 3, ArchiveIndex): every recognized key is optional, and a missing
key is distinct from an empty value. `md5`/`sha256` keys sometimes found in
an index file are parsed but never consulted by the merge (section 4.3:
the identity hash always wins). -/
structure ArchiveIndex where
  name : Option String
  version : Option String
  build : Option String
  build_number : Option Nat
  license : Option String
  timestamp : Option Nat
  depends : Option (List String)
  constrains : Option (List String)
  track_features : Option String
  noarch : Option String
  python_site_packages_path : Option String
  size : Option Nat
  arch : TriState
  platform : TriState
  md5 : Option String
  sha256 : Option String
  deriving Repr, DecidableEq

/-- A package identity with every field at its stub value; concrete
identities are built from it by record update. -/
def emptyPkg : PackageInfo :=
  { name := ""
    version := ""
    build_string := ""
    build_number := 0
    license := ""
    timestamp := 0
    depends := []
    constrains := []
    track_features := ""
    size := 0
    noarch := none
    python_site_packages_path := none
    channel := ""
    url := ""
    subdir := ""
    fn := ""
    md5 := ""
    sha256 := ""
    defaulted_keys := [] }

/-- An archive index with every key absent; concrete indices are built from
it by record update. -/
def emptyIndex : ArchiveIndex :=
  { name := none
    version := none
    build := none
    build_number := none
    license := none
    timestamp := none
    depends := none
    constrains := none
    track_features := none
    noarch := none
    python_site_packages_path := none
    size := none
    arch := TriState.absent
    platform := TriState.absent
    md5 := none
    sha256 := none }

/-- Modelled from the spec: the field-wise choice predicate of section 4.3
for an integer field — the identity value is used iff the field is not in
`defaulted_keys`; otherwise the archive value if present, else 0. -/
def pick_nat (key : String) (dk : List String) (idv : Nat) (av : Option Nat) : Nat :=
  if dk.contains key then av.getD 0 else idv

/-- Modelled from the spec: the field-wise choice of section 4.3 for a
string field — identity iff not defaulted; otherwise archive, else "". -/
def pick_str (key : String) (dk : List String) (idv : String) (av : Option String) : String :=
  if dk.contains key then av.getD "" else idv

/-- Modelled from the spec: the field-wise choice of section 4.3 for a list
field — identity iff not defaulted; otherwise archive, else the empty list. -/
def pick_list (key : String) (dk : List String) (idv : List String) (av : Option (List String)) :
    List String :=
  if dk.contains key then av.getD [] else idv

/-- Modelled from the spec: the field-wise choice of section 4.3 for an
optional field (`noarch`, `python_site_packages_path`) — identity iff not
defaulted; otherwise archive, else absent. -/
def pick_opt (key : String) (dk : List String) (idv : Option String) (av : Option String) :
    Option String :=
  if dk.contains key then av else idv

/-- Null and absent `arch`/`platform` are dropped from the output; only a
string value survives (section 4.3, last table row). -/
def tri_to_opt : TriState → Option String
  | TriState.value s => some s
  | _ => none

/-- Record segment holding one optional key: present with its value or
absent entirely. -/
def opt_entry (key : String) (v : Option String) : RepodataRecord :=
  match v with
  | some s => [(key, JVal.jstr s)]
  | none => []

/-- Modelled from the spec: the merged `track_features` value (section 4.3);
the writer omits the key when this value is empty. -/
def merged_track_features (pkg : PackageInfo) (idx : ArchiveIndex) : String :=
  pick_str "track_features" pkg.defaulted_keys pkg.track_features idx.track_features

/-- Modelled from the spec: the merged `size` (section 4.3 table row for
`size`, plus the post-merge normalization that backfills `tarball_size`
when the current value is 0 and the file has a real size). -/
def merged_size (pkg : PackageInfo) (idx : ArchiveIndex) (tarball_size : Nat) : Nat :=
  let base :=
    if pkg.defaulted_keys.contains "size" then
      if pkg.size ≠ 0 then pkg.size else tarball_size
    else
      if pkg.size ≠ 0 then pkg.size
      else if tarball_size ≠ 0 then tarball_size
      else idx.size.getD 0
  if base = 0 ∧ tarball_size ≠ 0 then tarball_size else base

/-- Modelled from the spec: `merge_repodata_record` (section 4.3), the pure
merge of a package identity with the archive-embedded index and the archive
file size, producing the record written as `repodata_record.json`. Its
implementation is referenced only by the tests under `src/libmamba/tests`.
Field-wise choice: identity iff the field is not in `defaulted_keys`,
otherwise archive value, otherwise the type-appropriate empty; identity
hashes always win; `track_features` omitted when empty; null
`arch`/`platform` dropped; `depends`/`constrains` always arrays. -/
def merge_repodata_record (pkg : PackageInfo) (idx : ArchiveIndex) (tarball_size : Nat) :
    RepodataRecord :=
  let tf := merged_track_features pkg idx
  ([("name", JVal.jstr pkg.name),
    ("version", JVal.jstr pkg.version),
    ("build_string", JVal.jstr pkg.build_string),
    ("build_number",
      JVal.jnat (pick_nat "build_number" pkg.defaulted_keys pkg.build_number idx.build_number)),
    ("license", JVal.jstr (pick_str "license" pkg.defaulted_keys pkg.license idx.license)),
    ("timestamp", JVal.jnat (pick_nat "timestamp" pkg.defaulted_keys pkg.timestamp idx.timestamp)),
    ("depends", JVal.jarr (pick_list "depends" pkg.defaulted_keys pkg.depends idx.depends)),
    ("constrains", JVal.jarr (pick_list "constrains" pkg.defaulted_keys pkg.constrains idx.constrains)),
    ("md5", JVal.jstr pkg.md5),
    ("sha256", JVal.jstr pkg.sha256),
    ("url", JVal.jstr pkg.url),
    ("channel", JVal.jstr pkg.channel),
    ("subdir", JVal.jstr pkg.subdir),
    ("fn", JVal.jstr pkg.fn),
    ("size", JVal.jnat (merged_size pkg idx tarball_size))] : RepodataRecord)
  ++ ((if tf = "" then ([] : RepodataRecord) else [("track_features", JVal.jstr tf)])
  ++ (opt_entry "noarch" (pick_opt "noarch" pkg.defaulted_keys pkg.noarch idx.noarch)
  ++ (opt_entry "python_site_packages_path"
        (pick_opt "python_site_packages_path" pkg.defaulted_keys
          pkg.python_site_packages_path idx.python_site_packages_path)
  ++ (opt_entry "arch" (tri_to_opt idx.arch)
  ++ opt_entry "platform" (tri_to_opt idx.platform)))))

/-- Modelled from the spec: `is_corrupted_cache_entry` (section 4.5) — the
legacy-corruption detector flags a record iff its `timestamp` is 0 AND its
`license` is the empty string; its implementation is referenced only by the
tests under `src/libmamba/tests`. -/
def is_corrupted_cache_entry (r : RepodataRecord) : Bool :=
  (lookupKey r "timestamp" == some (JVal.jnat 0))
    && (lookupKey r "license" == some (JVal.jstr ""))

/-- Modelled from the spec: clause 3 of cache validity (section 4.5) — the
cached record's `url`, `fn` and at least one nonempty matching checksum
agree with the identity. -/
def record_matches_identity (pkg : PackageInfo) (r : RepodataRecord) : Bool :=
  (lookupKey r "url" == some (JVal.jstr pkg.url))
    && (lookupKey r "fn" == some (JVal.jstr pkg.fn))
    && (((pkg.md5 != "") && (lookupKey r "md5" == some (JVal.jstr pkg.md5)))
        || ((pkg.sha256 != "") && (lookupKey r "sha256" == some (JVal.jstr pkg.sha256))))

/-- Modelled from the spec: the `CacheValidator` decision (section 4.5): a
cache entry is valid iff a parsed record is present, agrees with the
identity, and does not exhibit the legacy corruption signature. `none`
stands for a missing or unparseable record file. -/
def cache_entry_valid (pkg : PackageInfo) (cached : Option RepodataRecord) : Bool :=
  match cached with
  | none => false
  | some r => record_matches_identity pkg r && !(is_corrupted_cache_entry r)

/-- Modelled from the spec: `PackageFetcher::needs_extract` — the fetcher
re-extracts exactly when the cache validator rejects the cached entry
(sections 4.5 and 4.6); the fetcher implementation is referenced only by
the tests under `src/libmamba/tests`. -/
def needs_extract (pkg : PackageInfo) (cached : Option RepodataRecord) : Bool :=
  !(cache_entry_valid pkg cached)

/-- Modelled from the spec: the error taxonomy of section 7. -/
inductive FetchError where
  | invalidIdentity
  | noWritableCache
  | transportTransient
  | transportPermanent
  | checksumMismatch
  | archiveCorrupt
  | cacheCorruptLegacy
  | cancelled
  deriving Repr, DecidableEq

/-- Modelled from the spec: which errors of section 7 are fatal to the one
package. Transient transport errors and checksum mismatches are retried;
`CacheCorrupt(legacy)` is explicitly "not fatal — triggers re-extraction". -/
def is_fatal_for_package : FetchError → Bool
  | FetchError.transportTransient => false
  | FetchError.checksumMismatch => false
  | FetchError.cacheCorruptLegacy => false
  | _ => true

/-- Modelled from the spec: the exact `defaulted_keys` contents for a
URL-sourced identity (section 4.1). -/
def url_derived_defaulted_keys : List String :=
  ["build_number", "license", "timestamp", "track_features", "size",
   "depends", "constrains", "noarch", "python_site_packages_path"]

/-! ## Lookup lemmas for the merged record -/

theorem lookupKey_cons_ne (k key : String) (v : JVal) (rest : RepodataRecord)
    (h : k ≠ key) : lookupKey ((k, v) :: rest) key = lookupKey rest key := by
  simp [lookupKey, h]

theorem lookupKey_opt_entry_ne (k key : String) (v : Option String) (ys : RepodataRecord)
    (h : k ≠ key) : lookupKey (opt_entry k v ++ ys) key = lookupKey ys key := by
  cases v <;> simp [opt_entry, lookupKey, h]

theorem lookup_merge_build_number (pkg : PackageInfo) (idx : ArchiveIndex) (sz : Nat) :
    lookupKey (merge_repodata_record pkg idx sz) "build_number"
      = some (JVal.jnat (pick_nat "build_number" pkg.defaulted_keys pkg.build_number idx.build_number)) := by
  simp [merge_repodata_record, lookupKey]

theorem lookup_merge_license (pkg : PackageInfo) (idx : ArchiveIndex) (sz : Nat) :
    lookupKey (merge_repodata_record pkg idx sz) "license"
      = some (JVal.jstr (pick_str "license" pkg.defaulted_keys pkg.license idx.license)) := by
  simp [merge_repodata_record, lookupKey]

theorem lookup_merge_timestamp (pkg : PackageInfo) (idx : ArchiveIndex) (sz : Nat) :
    lookupKey (merge_repodata_record pkg idx sz) "timestamp"
      = some (JVal.jnat (pick_nat "timestamp" pkg.defaulted_keys pkg.timestamp idx.timestamp)) := by
  simp [merge_repodata_record, lookupKey]

theorem lookup_merge_depends (pkg : PackageInfo) (idx : ArchiveIndex) (sz : Nat) :
    lookupKey (merge_repodata_record pkg idx sz) "depends"
      = some (JVal.jarr (pick_list "depends" pkg.defaulted_keys pkg.depends idx.depends)) := by
  simp [merge_repodata_record, lookupKey]

theorem lookup_merge_constrains (pkg : PackageInfo) (idx : ArchiveIndex) (sz : Nat) :
    lookupKey (merge_repodata_record pkg idx sz) "constrains"
      = some (JVal.jarr (pick_list "constrains" pkg.defaulted_keys pkg.constrains idx.constrains)) := by
  simp [merge_repodata_record, lookupKey]

theorem lookup_merge_md5 (pkg : PackageInfo) (idx : ArchiveIndex) (sz : Nat) :
    lookupKey (merge_repodata_record pkg idx sz) "md5" = some (JVal.jstr pkg.md5) := by
  simp [merge_repodata_record, lookupKey]

theorem lookup_merge_sha256 (pkg : PackageInfo) (idx : ArchiveIndex) (sz : Nat) :
    lookupKey (merge_repodata_record pkg idx sz) "sha256" = some (JVal.jstr pkg.sha256) := by
  simp [merge_repodata_record, lookupKey]

theorem lookup_merge_size (pkg : PackageInfo) (idx : ArchiveIndex) (sz : Nat) :
    lookupKey (merge_repodata_record pkg idx sz) "size"
      = some (JVal.jnat (merged_size pkg idx sz)) := by
  simp [merge_repodata_record, lookupKey]

theorem lookupKey_opt_entry_ne_nil (k key : String) (v : Option String)
    (h : k ≠ key) : lookupKey (opt_entry k v) key = none := by
  cases v <;> simp [opt_entry, lookupKey, h]

theorem lookup_merge_track_features (pkg : PackageInfo) (idx : ArchiveIndex) (sz : Nat) :
    lookupKey (merge_repodata_record pkg idx sz) "track_features"
      = (if merged_track_features pkg idx = "" then none
         else some (JVal.jstr (merged_track_features pkg idx))) := by
  by_cases h : merged_track_features pkg idx = "" <;>
    simp [merge_repodata_record, lookupKey, h, lookupKey_opt_entry_ne,
      lookupKey_opt_entry_ne_nil]

/-! ## Claim theorems -/

/-- C1: for every identity and archive index, `merge_repodata_record` uses,
for each mergeable field (build_number, license, timestamp, depends,
constrains, track_features), the identity's value iff the field is not in
`defaulted_keys`; when it is defaulted, the archive's value is used if
present and the type-appropriate empty value otherwise (empty
`track_features` being represented by omitting the key). -/
theorem merge_field_choice_iff_defaulted (pkg : PackageInfo) (idx : ArchiveIndex) (sz : Nat) :
    (lookupKey (merge_repodata_record pkg idx sz) "build_number"
      = some (JVal.jnat (if pkg.defaulted_keys.contains "build_number"
          then idx.build_number.getD 0 else pkg.build_number)))
  ∧ (lookupKey (merge_repodata_record pkg idx sz) "license"
      = some (JVal.jstr (if pkg.defaulted_keys.contains "license"
          then idx.license.getD "" else pkg.license)))
  ∧ (lookupKey (merge_repodata_record pkg idx sz) "timestamp"
      = some (JVal.jnat (if pkg.defaulted_keys.contains "timestamp"
          then idx.timestamp.getD 0 else pkg.timestamp)))
  ∧ (lookupKey (merge_repodata_record pkg idx sz) "depends"
      = some (JVal.jarr (if pkg.defaulted_keys.contains "depends"
          then idx.depends.getD [] else pkg.depends)))
  ∧ (lookupKey (merge_repodata_record pkg idx sz) "constrains"
      = some (JVal.jarr (if pkg.defaulted_keys.contains "constrains"
          then idx.constrains.getD [] else pkg.constrains)))
  ∧ (lookupKey (merge_repodata_record pkg idx sz) "track_features"
      = (if (if pkg.defaulted_keys.contains "track_features"
            then idx.track_features.getD "" else pkg.track_features) = ""
         then none
         else some (JVal.jstr (if pkg.defaulted_keys.contains "track_features"
            then idx.track_features.getD "" else pkg.track_features)))) := by
  refine ⟨?_, ?_, ?_, ?_, ?_, ?_⟩
  · exact lookup_merge_build_number pkg idx sz
  · exact lookup_merge_license pkg idx sz
  · exact lookup_merge_timestamp pkg idx sz
  · exact lookup_merge_depends pkg idx sz
  · exact lookup_merge_constrains pkg idx sz
  · exact lookup_merge_track_features pkg idx sz

/-- C2: for every identity with empty `defaulted_keys` whose `depends` and
`constrains` are empty lists (an intentional channel patch), and every
archive index — including one carrying non-empty `depends`/`constrains` —
the merged record's `depends` and `constrains` are the empty arrays from
the identity. -/
theorem solver_empty_depends_constrains_preserved (pkg : PackageInfo) (idx : ArchiveIndex)
    (sz : Nat) (hdk : pkg.defaulted_keys = []) (hd : pkg.depends = [])
    (hc : pkg.constrains = []) :
    lookupKey (merge_repodata_record pkg idx sz) "depends" = some (JVal.jarr [])
  ∧ lookupKey (merge_repodata_record pkg idx sz) "constrains" = some (JVal.jarr []) := by
  constructor
  · rw [lookup_merge_depends]
    simp [pick_list, hdk, hd]
  · rw [lookup_merge_constrains]
    simp [pick_list, hdk, hc]

/-- Identity representing an intentional channel patch: solver-derived
(`defaulted_keys` empty) with intentionally empty `depends`/`constrains`,
from the `solver_derived_empty_arrays_are_authoritative` test. -/
def patchedPkg : PackageInfo :=
  { emptyPkg with
    name := "patched-pkg"
    version := "2.0"
    build_string := "h0"
    channel := "conda-forge"
    url := "https://example.com/patched-pkg-2.0-h0.tar.bz2"
    subdir := "linux-64"
    fn := "patched-pkg-2.0-h0.tar.bz2" }

/-- Archive index whose `index.json` still carries the pre-patch metadata. -/
def patchedIdx : ArchiveIndex :=
  { emptyIndex with
    name := some "patched-pkg"
    version := some "2.0"
    build := some "h0"
    depends := some ["old-dep >=1.0"]
    constrains := some ["old-constraint"] }

theorem solver_empty_depends_constrains_preserved_witness :
    patchedPkg.defaulted_keys = [] ∧ patchedPkg.depends = [] ∧ patchedPkg.constrains = []
  ∧ (lookupKey (merge_repodata_record patchedPkg patchedIdx 0) "depends" = some (JVal.jarr [])
     ∧ lookupKey (merge_repodata_record patchedPkg patchedIdx 0) "constrains"
        = some (JVal.jarr [])) :=
  ⟨rfl, rfl, rfl, solver_empty_depends_constrains_preserved patchedPkg patchedIdx 0 rfl rfl rfl⟩

/-- C3: the legacy-corruption detector flags a record iff its `timestamp`
equals 0 and its `license` is the empty string; a record satisfying only
one of the two conditions is not flagged. -/
theorem corrupted_cache_signature_iff (r : RepodataRecord) :
    is_corrupted_cache_entry r = true
      ↔ (lookupKey r "timestamp" = some (JVal.jnat 0)
         ∧ lookupKey r "license" = some (JVal.jstr "")) := by
  simp [is_corrupted_cache_entry]

/-- C6: every merged record contains `depends` and `constrains` as arrays
(possibly empty), for every identity, archive index and tarball size. -/
theorem depends_constrains_always_arrays (pkg : PackageInfo) (idx : ArchiveIndex) (sz : Nat) :
    (∃ d, lookupKey (merge_repodata_record pkg idx sz) "depends" = some (JVal.jarr d))
  ∧ (∃ c, lookupKey (merge_repodata_record pkg idx sz) "constrains" = some (JVal.jarr c)) :=
  ⟨⟨_, lookup_merge_depends pkg idx sz⟩, ⟨_, lookup_merge_constrains pkg idx sz⟩⟩

/-- C8: in every merged record the `track_features` key is omitted exactly
when the merged value is empty, and carries the merged value otherwise. -/
theorem track_features_omitted_iff_empty (pkg : PackageInfo) (idx : ArchiveIndex) (sz : Nat) :
    lookupKey (merge_repodata_record pkg idx sz) "track_features"
      = (if merged_track_features pkg idx = "" then none
         else some (JVal.jstr (merged_track_features pkg idx))) := by
  by_cases h : merged_track_features pkg idx = "" <;>
    simp [merge_repodata_record, lookupKey, h, lookupKey_opt_entry_ne,
      lookupKey_opt_entry_ne_nil]

/-- C10: a record in which the `timestamp` key or the `license` key is
missing entirely is never flagged by the legacy-corruption detector. -/
theorem missing_keys_not_corrupted (r : RepodataRecord)
    (h : lookupKey r "timestamp" = none ∨ lookupKey r "license" = none) :
    is_corrupted_cache_entry r = false := by
  rcases h with h | h <;> simp [is_corrupted_cache_entry, h]

theorem missing_keys_not_corrupted_witness :
    lookupKey ([("name", JVal.jstr "x")] : RepodataRecord) "timestamp" = none
  ∧ is_corrupted_cache_entry [("name", JVal.jstr "x")] = false :=
  ⟨by decide, missing_keys_not_corrupted [("name", JVal.jstr "x")] (Or.inl (by decide))⟩

/-- C5: whenever the identity carries at least one of md5/sha256, the
merged record contains both keys, with the identity's hashes preserved
verbatim (the archive index's claimed hashes are never consulted) and the
hash the identity did not carry written as the empty string. -/
theorem checksums_present_identity_verbatim (pkg : PackageInfo) (idx : ArchiveIndex) (sz : Nat)
    (h : pkg.md5 ≠ "" ∨ pkg.sha256 ≠ "") :
    lookupKey (merge_repodata_record pkg idx sz) "md5" = some (JVal.jstr pkg.md5)
  ∧ lookupKey (merge_repodata_record pkg idx sz) "sha256" = some (JVal.jstr pkg.sha256) :=
  ⟨lookup_merge_md5 pkg idx sz, lookup_merge_sha256 pkg idx sz⟩

/-- URL-sourced identity carrying only an md5 fragment, from scenario S3. -/
def urlHashPkg : PackageInfo :=
  { emptyPkg with
    name := "pkg"
    version := "1.0"
    build_string := "abc"
    url := "https://host/ch/linux-64/pkg-1.0-abc.conda"
    fn := "pkg-1.0-abc.conda"
    md5 := "7dbaa197d7ba6032caf7ae7f32c1efa0"
    sha256 := ""
    defaulted_keys := url_derived_defaulted_keys }

/-- Archive index claiming different hashes, from scenario S3. -/
def hashIdx : ArchiveIndex :=
  { emptyIndex with
    name := some "pkg"
    md5 := some "ffffffffffffffffffffffffffffffff"
    sha256 := some "0000000000000000000000000000000000000000000000000000000000000000" }

theorem checksums_present_identity_verbatim_witness :
    urlHashPkg.md5 ≠ ""
  ∧ (lookupKey (merge_repodata_record urlHashPkg hashIdx 123) "md5"
      = some (JVal.jstr urlHashPkg.md5)
     ∧ lookupKey (merge_repodata_record urlHashPkg hashIdx 123) "sha256"
      = some (JVal.jstr urlHashPkg.sha256)) :=
  ⟨by decide, checksums_present_identity_verbatim urlHashPkg hashIdx 123 (Or.inl (by decide))⟩

/-- C9: when the identity's size is 0 and the archive file has nonzero byte
length (passed as the tarball size argument), the merged record's size is
that byte length; and whenever the file has a real size the record's size
is never 0. -/
theorem size_backfilled_from_tarball (pkg : PackageInfo) (idx : ArchiveIndex) (sz : Nat)
    (hsz : sz ≠ 0) :
    (pkg.size = 0 → lookupKey (merge_repodata_record pkg idx sz) "size"
        = some (JVal.jnat sz))
  ∧ (∃ n, n ≠ 0 ∧ lookupKey (merge_repodata_record pkg idx sz) "size"
        = some (JVal.jnat n)) := by
  have hm0 : pkg.size = 0 → merged_size pkg idx sz = sz := by
    intro h0
    by_cases hc : pkg.defaulted_keys.contains "size" <;>
      simp [merged_size, hc, h0, hsz]
  constructor
  · intro h0
    rw [lookup_merge_size, hm0 h0]
  · refine ⟨merged_size pkg idx sz, ?_, lookup_merge_size pkg idx sz⟩
    by_cases h0 : pkg.size = 0
    · rw [hm0 h0]; exact hsz
    · by_cases hc : pkg.defaulted_keys.contains "size" <;>
        simp [merged_size, hc, h0, hsz]

/-- Identity with unknown size, from the `normalization_size_from_tarball`
test. -/
def sizedPkg : PackageInfo :=
  { emptyPkg with
    name := "sized-pkg"
    version := "1.0"
    build_string := "h0"
    channel := "conda-forge"
    url := "https://example.com/sized-pkg-1.0-h0.tar.bz2"
    subdir := "linux-64"
    fn := "sized-pkg-1.0-h0.tar.bz2" }

/-- Archive index carrying no size key, from the same test. -/
def sizedIdx : ArchiveIndex :=
  { emptyIndex with
    name := some "sized-pkg"
    version := some "1.0"
    build := some "h0" }

theorem size_backfilled_from_tarball_witness :
    (54321 : Nat) ≠ 0
  ∧ ((sizedPkg.size = 0 → lookupKey (merge_repodata_record sizedPkg sizedIdx 54321) "size"
        = some (JVal.jnat 54321))
     ∧ (∃ n, n ≠ 0 ∧ lookupKey (merge_repodata_record sizedPkg sizedIdx 54321) "size"
        = some (JVal.jnat n))) :=
  ⟨by decide, size_backfilled_from_tarball sizedPkg sizedIdx 54321 (by decide)⟩

/-- C4: a cached tree whose record exhibits the legacy signature makes the
fetcher re-extract (`needs_extract` is true, whatever else the record
contains), the re-merged record for a URL-sourced identity carries the
archive index's license, timestamp and build_number when present, and the
legacy cache corruption is not fatal to the package. -/
theorem corrupted_cache_heals_on_reextract (pkg : PackageInfo) (r : RepodataRecord)
    (idx : ArchiveIndex) (sz : Nat) (lic : String) (ts bn : Nat)
    (hts0 : lookupKey r "timestamp" = some (JVal.jnat 0))
    (hlic0 : lookupKey r "license" = some (JVal.jstr ""))
    (hdk : pkg.defaulted_keys = url_derived_defaulted_keys)
    (hlic : idx.license = some lic)
    (hts : idx.timestamp = some ts)
    (hbn : idx.build_number = some bn) :
    needs_extract pkg (some r) = true
  ∧ lookupKey (merge_repodata_record pkg idx sz) "license" = some (JVal.jstr lic)
  ∧ lookupKey (merge_repodata_record pkg idx sz) "timestamp" = some (JVal.jnat ts)
  ∧ lookupKey (merge_repodata_record pkg idx sz) "build_number" = some (JVal.jnat bn)
  ∧ is_fatal_for_package FetchError.cacheCorruptLegacy = false := by
  refine ⟨?_, ?_, ?_, ?_, rfl⟩
  · simp [needs_extract, cache_entry_valid, is_corrupted_cache_entry, hts0, hlic0]
  · rw [lookup_merge_license]
    simp [pick_str, hdk, hlic, url_derived_defaulted_keys]
  · rw [lookup_merge_timestamp]
    simp [pick_nat, hdk, hts, url_derived_defaulted_keys]
  · rw [lookup_merge_build_number]
    simp [pick_nat, hdk, hbn, url_derived_defaulted_keys]

/-- URL-sourced identity from the `PackageFetcher heals existing corrupted
cache` test. -/
def healingPkg : PackageInfo :=
  { emptyPkg with
    name := "healing-test"
    version := "1.0"
    build_string := "h123456_0"
    channel := "conda-forge"
    url := "https://conda.anaconda.org/conda-forge/linux-64/healing-test-1.0-h123456_0.tar.bz2"
    subdir := "linux-64"
    fn := "healing-test-1.0-h123456_0.tar.bz2"
    defaulted_keys := url_derived_defaulted_keys }

/-- Cached record written by a broken prior version: the legacy signature
together with otherwise-consistent metadata, from the same test. -/
def corruptedCachedRecord : RepodataRecord :=
  [("name", JVal.jstr "healing-test"),
   ("version", JVal.jstr "1.0"),
   ("build", JVal.jstr "h123456_0"),
   ("timestamp", JVal.jnat 0),
   ("license", JVal.jstr ""),
   ("build_number", JVal.jnat 0),
   ("fn", JVal.jstr "healing-test-1.0-h123456_0.tar.bz2"),
   ("url", JVal.jstr "https://conda.anaconda.org/conda-forge/linux-64/healing-test-1.0-h123456_0.tar.bz2"),
   ("md5", JVal.jstr "test_md5"),
   ("sha256", JVal.jstr "test_sha256"),
   ("size", JVal.jnat 1000)]

/-- Archive index with the correct metadata, from the same test. -/
def healingIdx : ArchiveIndex :=
  { emptyIndex with
    name := some "healing-test"
    version := some "1.0"
    build := some "h123456_0"
    build_number := some 42
    license := some "MIT"
    timestamp := some 1234567890 }

theorem corrupted_cache_heals_on_reextract_witness :
    lookupKey corruptedCachedRecord "timestamp" = some (JVal.jnat 0)
  ∧ lookupKey corruptedCachedRecord "license" = some (JVal.jstr "")
  ∧ (needs_extract healingPkg (some corruptedCachedRecord) = true
     ∧ lookupKey (merge_repodata_record healingPkg healingIdx 1000) "license"
        = some (JVal.jstr "MIT")
     ∧ lookupKey (merge_repodata_record healingPkg healingIdx 1000) "timestamp"
        = some (JVal.jnat 1234567890)
     ∧ lookupKey (merge_repodata_record healingPkg healingIdx 1000) "build_number"
        = some (JVal.jnat 42)
     ∧ is_fatal_for_package FetchError.cacheCorruptLegacy = false) :=
  ⟨by decide, by decide,
   corrupted_cache_heals_on_reextract healingPkg corruptedCachedRecord healingIdx 1000
     "MIT" 1234567890 42 (by decide) (by decide) rfl rfl rfl rfl⟩

/-- Identity with the stub signature but empty `defaulted_keys`, from the
`PackageFetcher::write_repodata_record prevents new corruption` test. -/
def corruptedStubPkg : PackageInfo :=
  { emptyPkg with
    name := "corrupted-pkg"
    version := "1.0"
    build_string := "h123456_0"
    fn := "corrupted-pkg-1.0-h123456_0.tar.bz2" }

/-- Archive index with the correct metadata, from the same test. -/
def correctIdx : ArchiveIndex :=
  { emptyIndex with
    name := some "corrupted-pkg"
    version := some "1.0"
    build := some "h123456_0"
    build_number := some 99
    license := some "Apache-2.0"
    timestamp := some 9999999999 }

/-- C7: evaluation of the spec-modelled merge at the failing input of the
`prevents new corruption` test: with `defaulted_keys` empty, the identity's
stub values (license "", timestamp 0, build_number 0) are preserved — the
index values are NOT taken — and the produced record itself exhibits the
legacy corruption signature, contrary to the claim and to the test's
expectations. -/
theorem merge_keeps_stub_values_when_defaulted_keys_empty :
    lookupKey (merge_repodata_record corruptedStubPkg correctIdx 0) "license"
      = some (JVal.jstr "")
  ∧ lookupKey (merge_repodata_record corruptedStubPkg correctIdx 0) "timestamp"
      = some (JVal.jnat 0)
  ∧ lookupKey (merge_repodata_record corruptedStubPkg correctIdx 0) "build_number"
      = some (JVal.jnat 0)
  ∧ is_corrupted_cache_entry (merge_repodata_record corruptedStubPkg correctIdx 0) = true := by
  refine ⟨?_, ?_, ?_, ?_⟩ <;> decide

end MambaCache
